import Mathlib

/-!
Verification of the soybean-monitor signal engine (src/soybean_monitor.py).

The core under verification is the pure classifier `get_final_strategy`
(lines 119-179), the trend computation of `main` (lines 218-225, 237),
the normalization `(data / data.iloc[0]) * 100` (lines 184, 240-241),
the revenue default `revenue_data.get(code, 0.0)` (line 245), and the
empty-table guard `if df.empty: return` (line 214).

Prices and percentages are modelled as rationals (`ℚ`); all constants that
appear in the comparisons (−4.0, −2, −5.0, −5, 15, −10, −3.0) are exactly
representable as floats, and the inputs in every concrete scenario below
are too, so float comparison agrees with the rational comparison.
-/

namespace SoybeanMonitor

/-- Primary category of the classifier, one per leaf of the `if/elif/else`
tree of `get_final_strategy` (source lines 132-169), using the spec's
category names for the leaves. -/
inductive Category
  | WARNING_DIVERGENCE
  | DUAL_ENGINE_BULLISH
  | WATCH_MISPRICED
  | DECLINE_RISK
  | POTENTIAL_TURNAROUND
  | NEUTRAL_WAIT
  | PRICING_POWER
  | DOUBLE_SQUEEZE
  deriving DecidableEq, Repr

/-- Secondary qualifier appended as `note` (source lines 172-174). -/
inductive Qualifier
  | OVEREXTENDED
  | GOLDEN_ENTRY
  deriving DecidableEq, Repr

/-- Result record of `get_final_strategy` (source lines 176-179).
`cost_str` is the cost-status label of line 126; `rev_icon` is the
favorable/unfavorable icon chosen on line 127 (the numeric part of the
formatted `rev_str` is omitted: no claim concerns it). -/
structure Recommendation where
  category : Category
  qualifier : Option Qualifier
  cost_str : String
  rev_icon : String
  deriving DecidableEq, Repr

/-- Embedding of `get_final_strategy(stock_change, soy_change, gap, revenue_yoy)`
(source lines 119-179).  The booleans `cost_ok = soy_change < 0` (line 123)
and `rev_ok = revenue_yoy > 0` (line 124) are inlined at each use site. -/
def get_final_strategy (stock_change soy_change gap revenue_yoy : ℚ) :
    Recommendation :=
  { category :=
      if revenue_yoy > 0 ∧ stock_change < -4 then
        Category.WARNING_DIVERGENCE
      else if soy_change < 0 then
        if revenue_yoy > 0 then
          if stock_change > -2 then Category.DUAL_ENGINE_BULLISH
          else Category.WATCH_MISPRICED
        else if revenue_yoy < -5 then Category.DECLINE_RISK
        else if gap < -5 then Category.POTENTIAL_TURNAROUND
        else Category.NEUTRAL_WAIT
      else
        if revenue_yoy > 0 ∧ stock_change > 0 then Category.PRICING_POWER
        else Category.DOUBLE_SQUEEZE,
    qualifier :=
      if gap > 15 then some Qualifier.OVEREXTENDED
      else if gap < -10 ∧ soy_change < 0 ∧ stock_change > -4 then
        some Qualifier.GOLDEN_ENTRY
      else none,
    cost_str := if soy_change < 0 then "成本↘" else "成本↗",
    rev_icon := if revenue_yoy > 0 then "🔺" else "🔻" }

/-- Reference-row index used by `main` (source lines 218-222):
`prev = df.iloc[-W]`, falling back to `df.iloc[0]` when the negative
index is out of range.  In Python, `iloc[-W]` on a frame of `L` rows is
row `L - W` and is in range exactly when `W ≤ L`; otherwise the
`except` branch takes row 0. -/
def prevIndex (L W : ℕ) : ℕ :=
  if W ≤ L then L - W else 0

/-- Trend percentage of `main` (source lines 225 and 237):
`((current - prev) / prev) * 100` with `current = df.iloc[-1]`. -/
def computeTrend (prices : List ℚ) (W : ℕ) : ℚ :=
  let cur := prices.getD (prices.length - 1) 0
  let ref := prices.getD (prevIndex prices.length W) 0
  (cur - ref) / ref * 100

/-- Outcome of the same division under the float semantics the source
actually runs: numpy float division by a zero reference yields a
non-finite value (±inf, or NaN when the numerator is also 0) and raises
no exception. -/
inductive TrendOutcome
  | finite (v : ℚ)
  | nonfinite
  deriving DecidableEq, Repr

/-- Float-faithful version of the trend computation of lines 225/237: a
zero reference price produces a silent non-finite result, never an error. -/
def computeTrendOutcome (prices : List ℚ) (W : ℕ) : TrendOutcome :=
  let cur := prices.getD (prices.length - 1) 0
  let ref := prices.getD (prevIndex prices.length W) 0
  if ref = 0 then TrendOutcome.nonfinite
  else TrendOutcome.finite ((cur - ref) / ref * 100)

/-- Normalization of one price column (source lines 184 and 240-241):
`(col / col.iloc[0]) * 100`, a fresh series, the input untouched. -/
def normalizeColumn (col : List ℚ) : List ℚ :=
  col.map (fun p => p / col.getD 0 0 * 100)

/-- Normalization of a whole table, column by column (line 184:
`(data / data.iloc[0]) * 100` rebases every column by its own first value). -/
def normalizeTable (table : List (List ℚ)) : List (List ℚ) :=
  table.map normalizeColumn

/-- Last value of a normalized column, as used for the spread
(source lines 240-242). -/
def normLast (col : List ℚ) : ℚ :=
  col.getD (col.length - 1) 0 / col.getD 0 0 * 100

/-- Revenue lookup with default (source line 245):
`revenue_data.get(code, 0.0)`. -/
def lookupRevenue (revenue_data : List (String × ℚ)) (code : String) : ℚ :=
  match revenue_data.find? (fun p => p.1 == code) with
  | some p => p.2
  | none => 0

/-- Per-ticker analysis of the loop body of `main` (source lines 232-248):
short-window trend, spread of last normalized values, revenue with
default, then the classifier. -/
def analyzeStock (soy_change : ℚ) (revenue_data : List (String × ℚ))
    (commodity : List ℚ) (code : String) (col : List ℚ) (W : ℕ) :
    Recommendation :=
  let s_pct := computeTrend col W
  let gap := normLast col - normLast commodity
  get_final_strategy s_pct soy_change gap (lookupRevenue revenue_data code)

/-- Price table of `main`: the commodity column plus one column per
configured equity ticker. -/
structure PriceTable where
  commodity : List ℚ
  stocks : List (String × List ℚ)
  deriving DecidableEq, Repr

/-- Error taxonomy of the spec (§7), present here only so the spec's
"fails with InsufficientDataError" is statable for comparison; the source
defines no such classes. -/
inductive ReportError
  | insufficientData
  | invalidPrice
  deriving DecidableEq, Repr

/-- Possible outcomes of the report build.  `emptyReturn` is the silent
`if df.empty: return` of source line 214; `failed` is never produced by
the source and exists only to state the spec's error-raising behavior. -/
inductive ReportOutcome
  | emptyReturn
  | sent (records : List Recommendation)
  | failed (e : ReportError)
  deriving DecidableEq, Repr

/-- Report build of `main` (source lines 208-256): the empty guard of
line 214, then the commodity trend, then one record per equity column. -/
def buildReport (table : PriceTable) (revenue_data : List (String × ℚ))
    (W : ℕ) : ReportOutcome :=
  if table.commodity.length = 0 then ReportOutcome.emptyReturn
  else
    let soy_pct := computeTrend table.commodity W
    ReportOutcome.sent (table.stocks.map
      (fun p => analyzeStock soy_pct revenue_data table.commodity p.1 p.2 W))

/-- Modelled from the spec (claim C2's wording, for comparison only): a
trend computation whose reference row is `L - 1 - W` when `L > W` and
row 0 otherwise. -/
def specTrendC2 (prices : List ℚ) (W : ℕ) : ℚ :=
  let L := prices.length
  let cur := prices.getD (L - 1) 0
  let ref := prices.getD (if W < L then L - 1 - W else 0) 0
  (cur - ref) / ref * 100

/-- Concrete 21-row price series separating the code's reference row
(`L - W = 1`, price 2) from the spec's claimed row (`L - 1 - W = 0`,
price 1) at `W = 20`. -/
def c2Series : List ℚ :=
  [1, 2] ++ List.replicate 18 1 ++ [3]

/-- Claim C1, counterexample.  At inputs stock_change = −5, soy_change = −1,
gap = −12, revenue_yoy = −2 the spec's stated GOLDEN_ENTRY condition holds
(spread < −10, costFavorable, revenueYoYPct > −3, and spread > 15 fails),
yet the code attaches no qualifier, because the source's third conjunct on
line 174 is `stock_change > -4`, not `revenue_yoy > -3`. -/
theorem C1_golden_entry_counterexample :
    ((-12 : ℚ) < -10 ∧ (-1 : ℚ) < 0 ∧ (-2 : ℚ) > -3 ∧ ¬ ((-12 : ℚ) > 15)) ∧
    (get_final_strategy (-5) (-1) (-12) (-2)).qualifier = none :=
  ⟨by norm_num, by decide⟩

/-- Claim C1, amended.  Whenever spread > 15 does not hold, the GOLDEN_ENTRY
qualifier is attached exactly when spread < −10 AND costFavorable
(soy_change < 0) AND stock_change > −4 all hold, and is absent otherwise
(source lines 172-174). -/
theorem C1_golden_entry_amended (stock_change soy_change gap revenue_yoy : ℚ)
    (hno : ¬ gap > 15) :
    (get_final_strategy stock_change soy_change gap revenue_yoy).qualifier
      = some Qualifier.GOLDEN_ENTRY ↔
    (gap < -10 ∧ soy_change < 0 ∧ stock_change > -4) := by
  simp only [get_final_strategy, if_neg hno]
  split_ifs with h
  · simp [h]
  · simp [h]

/-- Claim C1, witness for the amended theorem at the spec's own
end-to-end scenario 3 (stock 0.5 replaced by 0; both lie in the same
branch since 0 > −4). -/
theorem C1_golden_entry_amended_witness :
    ((get_final_strategy 0 (-1) (-12) (-2)).qualifier
      = some Qualifier.GOLDEN_ENTRY ↔
    ((-12 : ℚ) < -10 ∧ (-1 : ℚ) < 0 ∧ (0 : ℚ) > -4)) :=
  C1_golden_entry_amended 0 (-1) (-12) (-2) (by norm_num)

/-- Claim C2, counterexample.  On the 21-row series `c2Series` with
W = 20 (so L > W), the code's trend (reference row L − W = 1, price 2)
is 50, while a trend taken at the claimed reference row
L − 1 − W = 0 (price 1) would be 200: the code does not use row L−1−W. -/
theorem C2_reference_index_counterexample :
    computeTrend c2Series 20 = 50 ∧ specTrendC2 c2Series 20 = 200 ∧
    computeTrend c2Series 20 ≠ specTrendC2 c2Series 20 := by
  have h1 : computeTrend c2Series 20 = 50 := by
    norm_num [computeTrend, prevIndex, c2Series, List.getD]
  have h2 : specTrendC2 c2Series 20 = 200 := by
    norm_num [specTrendC2, c2Series, List.getD]
  exact ⟨h1, h2, by rw [h1, h2]; norm_num⟩

/-- Claim C2, amended.  The reference row of the trend computation is
`L - min W L`: row L − W when L ≥ W (in particular when L > W), and
row 0 when L ≤ W; the trend is (price[L−1] − price[ref]) / price[ref] × 100
taken at that reference row (source lines 218-225 and 237). -/
theorem C2_reference_index_amended (prices : List ℚ) (W : ℕ) :
    prevIndex prices.length W = prices.length - min W prices.length ∧
    computeTrend prices W =
      (prices.getD (prices.length - 1) 0 -
        prices.getD (prices.length - min W prices.length) 0) /
        prices.getD (prices.length - min W prices.length) 0 * 100 := by
  have h : prevIndex prices.length W = prices.length - min W prices.length := by
    unfold prevIndex
    split_ifs with hWL
    · rw [min_eq_left hWL]
    · rw [min_eq_right (le_of_not_le hWL), Nat.sub_self]
  exact ⟨h, by simp only [computeTrend, h]⟩

/-- Claim C3.  Whenever revenue_yoy > 0 and stock_change < −4, the
classifier returns WARNING_DIVERGENCE, whatever soy_change and gap are:
the divergence branch (source line 135) is checked first and wins. -/
theorem C3_branch_priority (stock_change soy_change gap revenue_yoy : ℚ)
    (hrev : revenue_yoy > 0) (hstock : stock_change < -4) :
    (get_final_strategy stock_change soy_change gap revenue_yoy).category
      = Category.WARNING_DIVERGENCE := by
  simp [get_final_strategy, hrev, hstock]

/-- Claim C3, witness at an input that also satisfies the raw conditions
of the later cost-favorable branch (soy_change < 0, revenue_yoy > 0). -/
theorem C3_branch_priority_witness :
    (get_final_strategy (-5) (-1) (-12) 10).category
      = Category.WARNING_DIVERGENCE :=
  C3_branch_priority (-5) (-1) (-12) 10 (by norm_num) (by norm_num)

/-- Claim C4.  Boundary comparisons are strict: stock_change exactly −4
(with revenue_yoy > 0) never yields WARNING_DIVERGENCE, and gap exactly 15
never yields the OVEREXTENDED qualifier, for every revenue value
`revenue_any` whatsoever (source lines 135 and 173).  The hypothesis
`hrev` constrains only the divergence half, as the claim's parenthetical
does. -/
theorem C4_strict_boundaries (stock_change soy_change gap revenue_yoy
    revenue_any : ℚ) (hrev : revenue_yoy > 0) :
    (get_final_strategy (-4) soy_change gap revenue_yoy).category
      ≠ Category.WARNING_DIVERGENCE ∧
    (get_final_strategy stock_change soy_change 15 revenue_any).qualifier
      ≠ some Qualifier.OVEREXTENDED := by
  constructor
  · have h1 : ¬ (revenue_yoy > 0 ∧ (-4 : ℚ) < -4) := by
      rintro ⟨-, h⟩
      exact absurd h (by norm_num)
    simp only [get_final_strategy, if_neg h1]
    split_ifs <;> decide
  · have h2 : ¬ ((15 : ℚ) > 15) := by norm_num
    simp only [get_final_strategy, if_neg h2]
    split_ifs <;> decide

/-- Claim C4, witness at revenue_yoy = 1, soy_change = −1, gap = 2,
stock_change = 0, and revenue_any = 0 — the absent-data default — for the
OVEREXTENDED half. -/
theorem C4_strict_boundaries_witness :
    (get_final_strategy (-4) (-1) 2 1).category
      ≠ Category.WARNING_DIVERGENCE ∧
    (get_final_strategy 0 (-1) 15 0).qualifier
      ≠ some Qualifier.OVEREXTENDED :=
  C4_strict_boundaries 0 (-1) 2 1 0 (by norm_num)

/-- Claim C5.  On the price column [0, 5] (reference row 0 holds price 0)
with W = 20, the trend computation of line 237 silently yields a
non-finite float value; no InvalidPriceError exists in the source and no
exception is raised (numpy float division by zero only warns), so the
value propagates into the report. -/
theorem C5_zero_reference_silent :
    computeTrendOutcome [0, 5] 20 = TrendOutcome.nonfinite := by decide

/-- Claim C6.  The classifier is total: every input yields a well-defined
Recommendation whose category is one of the eight constructors, the
if/elif/else tree of lines 132-169 being exhaustive. -/
theorem C6_classifier_total (stock_change soy_change gap revenue_yoy : ℚ) :
    (get_final_strategy stock_change soy_change gap revenue_yoy).category = Category.WARNING_DIVERGENCE ∨
    (get_final_strategy stock_change soy_change gap revenue_yoy).category = Category.DUAL_ENGINE_BULLISH ∨
    (get_final_strategy stock_change soy_change gap revenue_yoy).category = Category.WATCH_MISPRICED ∨
    (get_final_strategy stock_change soy_change gap revenue_yoy).category = Category.DECLINE_RISK ∨
    (get_final_strategy stock_change soy_change gap revenue_yoy).category = Category.POTENTIAL_TURNAROUND ∨
    (get_final_strategy stock_change soy_change gap revenue_yoy).category = Category.NEUTRAL_WAIT ∨
    (get_final_strategy stock_change soy_change gap revenue_yoy).category = Category.PRICING_POWER ∨
    (get_final_strategy stock_change soy_change gap revenue_yoy).category = Category.DOUBLE_SQUEEZE := by
  cases h : (get_final_strategy stock_change soy_change gap revenue_yoy).category <;> simp

/-- Claim C7.  For any column of the table whose first value is a real
(positive) observation, the normalized column has exactly 100 at row 0,
and it is a fresh column of the fresh normalized table: the input is
untouched (lines 184, 240-241 build a new frame). -/
theorem C7_normalizer_row_zero (table : List (List ℚ)) (col : List ℚ)
    (hmem : col ∈ table) (hobs : 0 < col.getD 0 0) :
    (normalizeColumn col).getD 0 0 = 100 ∧
    normalizeColumn col ∈ normalizeTable table := by
  refine ⟨?_, by simpa [normalizeTable] using List.mem_map_of_mem normalizeColumn hmem⟩
  cases col with
  | nil => simp at hobs
  | cons p rest =>
    have hp : (0 : ℚ) < p := by simpa using hobs
    simp [normalizeColumn, div_self hp.ne']

/-- Claim C7, witness on the one-column table [[2, 4]]. -/
theorem C7_normalizer_row_zero_witness :
    (normalizeColumn [2, 4]).getD 0 0 = 100 ∧
    normalizeColumn [2, 4] ∈ normalizeTable [[2, 4]] :=
  C7_normalizer_row_zero [[2, 4]] [2, 4] (by decide) (by decide)

/-- Claim C8, counterexample.  On a table with 0 rows the report build
takes the silent `if df.empty: return` path of line 214: the outcome is
the plain early return, not a raised InsufficientDataError. -/
theorem C8_empty_table_counterexample :
    buildReport { commodity := [], stocks := [] } [] 20 = ReportOutcome.emptyReturn ∧
    ReportOutcome.emptyReturn ≠ ReportOutcome.failed ReportError.insufficientData :=
  ⟨by decide, by decide⟩

/-- Claim C8, amended.  If the price table has 0 rows, the report build
returns early producing no output at all — no records, no notification,
and also no error: a silent normal return (source line 214). -/
theorem C8_empty_table_amended (table : PriceTable)
    (revenue_data : List (String × ℚ)) (W : ℕ)
    (h : table.commodity.length = 0) :
    buildReport table revenue_data W = ReportOutcome.emptyReturn := by
  simp [buildReport, h]

/-- Claim C8, witness on an empty table with nonempty revenue data. -/
theorem C8_empty_table_amended_witness :
    buildReport { commodity := [], stocks := [("1219", [5])] }
      [("1219", 3)] 20 = ReportOutcome.emptyReturn :=
  C8_empty_table_amended { commodity := [], stocks := [("1219", [5])] }
    [("1219", 3)] 20 (by decide)

/-- Claim C9.  When the revenue map holds no entry for the equity code,
the per-ticker analysis substitutes 0.0 (line 245,
`revenue_data.get(code, 0.0)`) and classification proceeds with
revenue_yoy = 0. -/
theorem C9_absent_revenue_default (soy_change : ℚ)
    (revenue_data : List (String × ℚ)) (commodity col : List ℚ)
    (code : String) (W : ℕ)
    (habs : revenue_data.find? (fun p => p.1 == code) = none) :
    analyzeStock soy_change revenue_data commodity code col W =
      get_final_strategy (computeTrend col W) soy_change
        (normLast col - normLast commodity) 0 := by
  simp [analyzeStock, lookupRevenue, habs]

/-- Claim C9, witness: code "1219" is absent from a revenue map that
only holds "1210". -/
theorem C9_absent_revenue_default_witness :
    analyzeStock (-1) [("1210", 5)] [10, 10] "1219" [10, 20] 20 =
      get_final_strategy (computeTrend [10, 20] 20) (-1)
        (normLast [10, 20] - normLast [10, 10]) 0 :=
  C9_absent_revenue_default (-1) [("1210", 5)] [10, 10] [10, 20] "1219" 20
    (by decide)

/-- Claim C10.  The revenue marker of the metrics summary (line 127) is
the favorable icon exactly when revenue_yoy > 0; at revenue_yoy = 0 — the
value substituted when revenue data is absent — it is the unfavorable
icon, not a neutral one. -/
theorem C10_revenue_marker (stock_change soy_change gap revenue_yoy : ℚ) :
    ((get_final_strategy stock_change soy_change gap revenue_yoy).rev_icon = "🔺"
      ↔ revenue_yoy > 0) ∧
    (get_final_strategy stock_change soy_change gap 0).rev_icon = "🔻" := by
  constructor
  · simp only [get_final_strategy]
    split_ifs with h
    · simpa using h
    · exact ⟨fun hs => absurd hs (by decide), fun hr => absurd hr h⟩
  · norm_num [get_final_strategy]

end SoybeanMonitor
